import Mathlib

/-!
Shallow embedding of the ArduLog AI Analyst single-page application
(src/index.tsx) and verification of its specification claims.

The component's reactive state is modelled as an explicit record
(`AppState`); every `setXxx` call of the source is modelled as an event
(`Ev`), and each handler is a function from the current state (plus the
results of its environment interactions: file contents, stream chunks,
object-URL creation, base64 encoding) to the ordered list of events it
emits.  Folding `applyEv` over that list yields the post-state, exactly as
React applies the queued state updates of the sequential handler.

JavaScript string primitives used by the source (`trim`, `startsWith`,
`endsWith` via name suffix tests, `split`, `replace`, `substring`) are
embedded as executable functions over the character list of the string.
-/

namespace ArduLog

/-! ## JavaScript string primitives -/

/-- Whitespace test used by JS `String.prototype.trim` (ASCII subset; the
Unicode space classes never arise in the claims). -/
def jsIsSpace (c : Char) : Bool :=
  c = ' ' || c = '\t' || c = '\n' || c = '\r' || c = '\x0b' || c = '\x0c'

/-- JS `s.trim()`: strip leading and trailing whitespace. -/
def jsTrim (s : String) : String :=
  String.mk (((s.data.dropWhile jsIsSpace).reverse.dropWhile jsIsSpace).reverse)

/-- JS `s.startsWith(pat)`. -/
def jsStartsWith (s pat : String) : Bool :=
  pat.data.isPrefixOf s.data

/-- JS `s.endsWith(pat)`. -/
def jsEndsWith (s pat : String) : Bool :=
  pat.data.isSuffixOf s.data

/-- JS `s.toLowerCase()` (ASCII-relevant part, per character). -/
def jsToLower (s : String) : String :=
  String.mk (s.data.map Char.toLower)

/-- JS `s.substring(n)`: drop the first `n` code units. -/
def jsSubstringFrom (s : String) (n : Nat) : String :=
  String.mk (s.data.drop n)

/-- Replace the first occurrence of `pat` (always non-empty here) by the
empty string, as JS `s.replace(pat, '')` does for a string pattern. -/
def replaceFirstAux (pat : List Char) : List Char → List Char
  | [] => []
  | c :: rest =>
    if pat.isPrefixOf (c :: rest) && !pat.isEmpty then (c :: rest).drop pat.length
    else c :: replaceFirstAux pat rest

/-- JS `s.replace(pat, '')` with a string pattern: first occurrence only. -/
def jsReplaceFirst (s pat : String) : String :=
  String.mk (replaceFirstAux pat.data s.data)

/-- Replace every (left-to-right, non-overlapping) occurrence of `pat`
(always non-empty here) by the empty string, as JS
`s.replace(/pat/g, '')` does.  The fuel argument only bounds the number
of steps; since every step consumes at least one character, fuel equal
to the list length never runs out. -/
def replaceAllAux (pat : List Char) : List Char → Nat → List Char
  | l, 0 => l
  | [], _ => []
  | c :: rest, fuel + 1 =>
    if pat.isPrefixOf (c :: rest) && !pat.isEmpty then
      replaceAllAux pat ((c :: rest).drop pat.length) fuel
    else
      c :: replaceAllAux pat rest fuel

/-- JS `s.replace(/pat/g, '')` with a global regex of a literal pattern. -/
def jsReplaceAll (s pat : String) : String :=
  String.mk (replaceAllAux pat.data s.data s.data.length)

/-- Helper for `jsSplitNl`: accumulates the current segment reversed. -/
def splitNlAux : List Char → List Char → List String
  | [], cur => [String.mk cur.reverse]
  | c :: rest, cur =>
    if c = '\n' then String.mk cur.reverse :: splitNlAux rest []
    else splitNlAux rest (c :: cur)

/-- JS `s.split('\n')`. -/
def jsSplitNl (s : String) : List String :=
  splitNlAux s.data []

/-! ## Data model (src/index.tsx types and component state) -/

/-- The `HardwareContext` type of the source. -/
structure HardwareContext where
  frameType : String
  weight : String
  batteryCells : String
  batteryCapacity : String
  motorKv : String
  propSize : String
  escAmps : String
deriving DecidableEq

/-- Role tag of a chat `Message` of the source. -/
inductive Role where
  | user
  | model
deriving DecidableEq

/-- The `Message` type of the source. -/
structure Message where
  role : Role
  text : String
deriving DecidableEq

/-- A selected browser `File`: name, MIME type, and raw byte content. -/
structure File where
  name : String
  type : String
  bytes : List Nat
deriving DecidableEq

/-- JS `file.size`: the byte length. -/
def File.size (f : File) : Nat := f.bytes.length

/-- A content `Part` of a remote-model request: either a text part or an
inline-data part carrying a MIME type and base64 payload. -/
inductive Part where
  | text (t : String)
  | inlineData (mimeType : String) (data : String)
deriving DecidableEq

/-- A `Content` turn of a remote-model history. -/
structure Content where
  role : String
  parts : List Part
deriving DecidableEq

/-- The observable seed of a created chat session: the model identifier,
the seeded history, and the system instruction passed to
`ai.chats.create`. -/
structure ChatSessionData where
  model : String
  history : List Content
  systemInstruction : String
deriving DecidableEq

/-- The component state: one field per `useState` hook of `App`. -/
structure AppState where
  hardware : HardwareContext
  logData : String
  imageFile : Option File
  imagePreview : Option String
  isAnalyzing : Bool
  analysisResult : Option String
  chatSession : Option ChatSessionData
  chatHistory : List Message
  chatInput : String
  errorMsg : String
deriving DecidableEq

/-- Initial `hardware` state. -/
def initHW : HardwareContext := ⟨"Quad X", "", "", "", "", "", ""⟩

/-- Initial component state (the `useState` defaults). -/
def initState : AppState := ⟨initHW, "", none, none, false, none, none, [], "", ""⟩

/-! ## State-update events -/

/-- One state mutation or remote interaction performed by a handler, in
program order.  The `setXxx` constructors mirror the `useState` setters;
`textReadAttempt` marks a `file.text()` / `slice.text()` call;
`remoteGenerateCall`, `remoteChatCreate` and `remoteChatSend` mark the
calls into the remote AI service. -/
inductive Ev where
  | setHardware (h : HardwareContext)
  | setLogData (v : String)
  | setImageFile (v : Option File)
  | setImagePreview (v : Option String)
  | setIsAnalyzing (b : Bool)
  | setAnalysisResult (r : Option String)
  | setChatSession (c : Option ChatSessionData)
  | setChatHistory (h : List Message)
  | setChatInput (v : String)
  | setErrorMsg (m : String)
  | textReadAttempt (f : File)
  | remoteGenerateCall
  | remoteChatCreate
  | remoteChatSend (msg : String)
deriving DecidableEq

/-- Apply one event to the state (remote/read markers change nothing). -/
def applyEv (s : AppState) : Ev → AppState
  | .setHardware h => { s with hardware := h }
  | .setLogData v => { s with logData := v }
  | .setImageFile v => { s with imageFile := v }
  | .setImagePreview v => { s with imagePreview := v }
  | .setIsAnalyzing b => { s with isAnalyzing := b }
  | .setAnalysisResult r => { s with analysisResult := r }
  | .setChatSession c => { s with chatSession := c }
  | .setChatHistory h => { s with chatHistory := h }
  | .setChatInput v => { s with chatInput := v }
  | .setErrorMsg m => { s with errorMsg := m }
  | .textReadAttempt _ => s
  | .remoteGenerateCall => s
  | .remoteChatCreate => s
  | .remoteChatSend _ => s

/-- Fold a handler's event list over the state. -/
def runEvs (s : AppState) (evs : List Ev) : AppState :=
  evs.foldl applyEv s

/-- Is the event a call into the remote AI service? -/
def isRemoteEv : Ev → Bool
  | .remoteGenerateCall => true
  | .remoteChatCreate => true
  | .remoteChatSend _ => true
  | _ => false

/-- Is the event a text read of a file? -/
def isTextRead : Ev → Bool
  | .textReadAttempt _ => true
  | _ => false

/-- Is the event an `setAnalysisResult` update? -/
def isResultUpdate : Ev → Bool
  | .setAnalysisResult _ => true
  | _ => false

/-! ## Streaming chunks -/

/-- One fragment of a remote stream; `text` is absent (`none`) when the
chunk carries no text delta. -/
structure Chunk where
  text : Option String
deriving DecidableEq

/-- JS truthiness of `chunk.text`: present and non-empty. -/
def Chunk.truthy (c : Chunk) : Bool :=
  match c.text with
  | some t => !t.isEmpty
  | none => false

/-- Events of the analysis streaming loop
(`for await (const chunk of resultStream) { if (chunk.text) { fullResponse += chunk.text; setAnalysisResult(fullResponse); } }`),
starting from accumulator `acc`. -/
def analysisLoopEvs : List Chunk → String → List Ev
  | [], _ => []
  | c :: rest, acc =>
    if c.truthy then
      Ev.setAnalysisResult (some (acc ++ c.text.getD "")) ::
        analysisLoopEvs rest (acc ++ c.text.getD "")
    else
      analysisLoopEvs rest acc

/-- The accumulated text after draining the chunks from accumulator
`acc` (the final value of `fullResponse` / `modelMsg`). -/
def streamAccum : List Chunk → String → String
  | [], acc => acc
  | c :: rest, acc =>
    if c.truthy then streamAccum rest (acc ++ c.text.getD "")
    else streamAccum rest acc

/-! ## File ingestion (`handleFileSelect`) -/

/-- The fixed instructional message for `.bin` files. -/
def binMessage : String :=
  "⚠️ BINARY FILE DETECTED (.BIN)\n\nBrowser-based analysis cannot parse raw ArduPilot binary logs directly.\n\nRECOMMENDED ACTION:\n1. Open Mission Planner or QGroundControl.\n2. Convert the .BIN file to a .LOG (text) file.\n3. Or export your Parameter List (.param).\n4. Upload the text file here for analysis."

/-- The size ceiling for text reads (`const MAX_SIZE = 5 * 1024 * 1024`). -/
def MAX_SIZE : Nat := 5 * 1024 * 1024

/-- The fixed truncation suffix appended to oversized text files. -/
def truncationSuffix : String :=
  "\n\n[...File truncated for browser performance. Analysis will use the first 5MB...]"

/-- The image-extension test of the source
(`name.endsWith('.jpg') || ... || name.endsWith('.webp')` on the
lowercased name). -/
def isImageName (name : String) : Bool :=
  jsEndsWith name ".jpg" || jsEndsWith name ".jpeg" ||
    jsEndsWith name ".png" || jsEndsWith name ".webp"

/-- Events of `handleFileSelect`.  `file?` is `e.target.files[0]` (or
`none` when no file is selected); `createObjectURL` models
`URL.createObjectURL`; `decode` models text decoding of a byte sequence
(`blob.text()`); `readOk` tells whether the text read succeeds (its
failure is the `catch` branch). -/
def handleFileSelectEvents (s : AppState) (file? : Option File)
    (createObjectURL : File → String) (decode : List Nat → String)
    (readOk : Bool) : List Ev :=
  match file? with
  | none => []
  | some file =>
    let name := jsToLower file.name
    let pre := [Ev.setImageFile none, Ev.setImagePreview none, Ev.setErrorMsg ""]
    if isImageName name then
      pre ++ [Ev.setImageFile (some file), Ev.setImagePreview (some (createObjectURL file))]
    else if jsEndsWith name ".bin" then
      pre ++ [Ev.setLogData binMessage]
    else
      if readOk then
        pre ++ [Ev.textReadAttempt file,
                Ev.setLogData (if file.size > MAX_SIZE then
                    decode (file.bytes.take MAX_SIZE) ++ truncationSuffix
                  else
                    decode file.bytes)]
      else
        pre ++ [Ev.textReadAttempt file, Ev.setErrorMsg "Failed to read text file."]

/-- Events of `clearImage` (the file-input DOM reset is not state). -/
def clearImageEvents : List Ev :=
  [Ev.setImageFile none, Ev.setImagePreview none]

/-! ## Hardware-context field update (`handleInputChange`) -/

/-- The seven field names of `HardwareContext`. -/
inductive HWField where
  | frameType
  | weight
  | batteryCells
  | batteryCapacity
  | motorKv
  | propSize
  | escAmps
deriving DecidableEq

/-- The spread-update `{ ...prev, [field]: value }`. -/
def setHWField (h : HardwareContext) : HWField → String → HardwareContext
  | .frameType, v => { h with frameType := v }
  | .weight, v => { h with weight := v }
  | .batteryCells, v => { h with batteryCells := v }
  | .batteryCapacity, v => { h with batteryCapacity := v }
  | .motorKv, v => { h with motorKv := v }
  | .propSize, v => { h with propSize := v }
  | .escAmps, v => { h with escAmps := v }

/-- Field projection of `HardwareContext`. -/
def getHWField (h : HardwareContext) : HWField → String
  | .frameType => h.frameType
  | .weight => h.weight
  | .batteryCells => h.batteryCells
  | .batteryCapacity => h.batteryCapacity
  | .motorKv => h.motorKv
  | .propSize => h.propSize
  | .escAmps => h.escAmps

/-- Events of `handleInputChange(field, value)`. -/
def handleInputChangeEvents (s : AppState) (f : HWField) (v : String) : List Ev :=
  [Ev.setHardware (setHWField s.hardware f v)]

/-! ## Prompt assembly and analysis orchestration (`startAnalysis`) -/

/-- The fixed validation error message. -/
def fixedValidationMsg : String :=
  "Please upload a log file, paste data, or provide an image."

/-- The fixed system instruction (the template literal of the source). -/
def systemInstruction : String :=
  "\n        You are an expert ArduPilot Flight Engineer and Log Analyst. \n        Your goal is to analyze the provided drone configuration, log data (text), and visual data (screenshots of maps, telemetry graphs, or HUDs) to identify configuration errors, vibration issues, power inconsistencies, and tuning opportunities.\n        \n        **Image Analysis Rules:**\n        - If a MAP/FLIGHT PATH is provided: Look for straight lines vs wobbles. Analyze cornering overshoot. Identify if the path matches a tuned vehicle or loose navigation.\n        - If a GRAPH is provided: Identify noise levels, tracking errors (Target vs Actual), or spikes in current/vibration.\n        \n        **Report Structure:**\n        1. **Health Check**: Quick status (Green/Yellow/Red) on critical systems.\n        2. **Visual Analysis**: Insights derived from the uploaded image (if any).\n        3. **Configuration Analysis**: Check MOT_SPIN_ARM, battery settings, notch filters against hardware.\n        4. **Actionable Recommendations**: Specific parameter changes.\n      "

/-- The context-prompt template literal, interpolating the hardware
fields and the log text (`logData || \x22No text log provided.\x22`). -/
def contextPrompt (hw : HardwareContext) (logData : String) : String :=
  "\n        **Hardware Context:**\n        - Frame Type: " ++ hw.frameType ++
  "\n        - Weight: " ++ hw.weight ++
  " kg\n        - Battery: " ++ hw.batteryCells ++ "S " ++ hw.batteryCapacity ++
  "mAh\n        - Motors: " ++ hw.motorKv ++
  " KV\n        - Props: " ++ hw.propSize ++
  " inch\n        - ESC: " ++ hw.escAmps ++
  " A\n\n        **Log Data / Parameters:**\n        " ++
  (if logData = "" then "No text log provided." else logData) ++
  "\n\n        Please analyze this configuration and any attached visual data.\n      "

/-- The content parts of the analysis request: the text part, followed by
the inline image part when an attachment is present.  `encodeImage`
models the awaited `fileToBase64` result for the attachment. -/
def buildParts (s : AppState) (encodeImage : File → String) : List Part :=
  match s.imageFile with
  | some f => [Part.text (contextPrompt s.hardware s.logData),
               Part.inlineData f.type (encodeImage f)]
  | none => [Part.text (contextPrompt s.hardware s.logData)]

/-- The validation guard of `startAnalysis`
(`if (!logData.trim() && !imageFile)`). -/
def validationFails (s : AppState) : Bool :=
  jsTrim s.logData == "" && s.imageFile == none

/-- The outcome of the analysis streaming call: either the stream is
drained to exhaustion, or an exception is thrown (by the request itself
or mid-stream) after the given chunks were consumed. -/
inductive StreamOutcome where
  | success (chunks : List Chunk)
  | failure (chunks : List Chunk) (errMessage : String)

/-- Events of `startAnalysis`. -/
def startAnalysisEvents (s : AppState) (encodeImage : File → String)
    (outcome : StreamOutcome) : List Ev :=
  if validationFails s then
    [Ev.setErrorMsg fixedValidationMsg]
  else
    let pre := [Ev.setErrorMsg "", Ev.setIsAnalyzing true, Ev.setAnalysisResult none,
                Ev.setChatHistory [], Ev.setChatSession none]
    let parts := buildParts s encodeImage
    match outcome with
    | .success chunks =>
      pre ++ (Ev.remoteGenerateCall :: analysisLoopEvs chunks "" ++
        [Ev.setIsAnalyzing false, Ev.remoteChatCreate,
         Ev.setChatSession (some ⟨"gemini-3-flash-preview",
           [⟨"user", parts⟩, ⟨"model", [Part.text (streamAccum chunks "")]⟩],
           systemInstruction⟩)])
    | .failure chunks msg =>
      pre ++ (Ev.remoteGenerateCall :: analysisLoopEvs chunks "" ++
        [Ev.setErrorMsg (if msg = "" then "Analysis failed." else msg),
         Ev.setIsAnalyzing false])

/-! ## Chat orchestration (`sendChatMessage`) -/

/-- The outcome of the chat call: the send succeeds and the stream is
drained; the send itself throws; or the stream throws mid-iteration
after the given chunks were consumed. -/
inductive ChatOutcome where
  | success (chunks : List Chunk)
  | sendError (errMessage : String)
  | streamError (chunks : List Chunk) (errMessage : String)

/-- Events of the chat streaming loop: each truthy chunk replaces the
text of the last (model) entry with the cumulative concatenation.
`base` is the history up to and including the user entry. -/
def chatLoopEvs (base : List Message) : List Chunk → String → List Ev
  | [], _ => []
  | c :: rest, acc =>
    if c.truthy then
      Ev.setChatHistory (base ++ [⟨Role.model, acc ++ c.text.getD ""⟩]) ::
        chatLoopEvs base rest (acc ++ c.text.getD "")
    else
      chatLoopEvs base rest acc

/-- Events of `sendChatMessage`. -/
def sendChatMessageEvents (s : AppState) (outcome : ChatOutcome) : List Ev :=
  if jsTrim s.chatInput == "" || s.chatSession == none then
    []
  else
    let userMsg := s.chatInput
    let h1 := s.chatHistory ++ [⟨Role.user, userMsg⟩]
    let pre := [Ev.setChatInput "", Ev.setChatHistory h1]
    match outcome with
    | .success chunks =>
      pre ++ (Ev.remoteChatSend userMsg ::
        Ev.setChatHistory (h1 ++ [⟨Role.model, ""⟩]) :: chatLoopEvs h1 chunks "")
    | .sendError msg =>
      pre ++ [Ev.remoteChatSend userMsg,
              Ev.setChatHistory (h1 ++ [⟨Role.model, "Error: " ++ msg⟩])]
    | .streamError chunks msg =>
      pre ++ (Ev.remoteChatSend userMsg ::
        Ev.setChatHistory (h1 ++ [⟨Role.model, ""⟩]) :: chatLoopEvs h1 chunks "" ++
        [Ev.setChatHistory (h1 ++ [⟨Role.model, streamAccum chunks ""⟩,
                                   ⟨Role.model, "Error: " ++ msg⟩])])

/-! ## Report renderer -/

/-- One rendered line of the report view: h3 heading, h4 sub-heading,
list item, or paragraph. -/
inductive RLine where
  | heading (text : String)
  | subheading (text : String)
  | listItem (text : String)
  | para (text : String)
deriving DecidableEq

/-- Per-line classification of the report renderer
(the `analysisResult.split('\n').map(...)` body). -/
def renderLine (line : String) : RLine :=
  if jsStartsWith line "###" then .heading (jsReplaceFirst line "###")
  else if jsStartsWith line "**" then .subheading (jsReplaceAll line "**")
  else if jsStartsWith line "-" then .listItem (jsSubstringFrom line 1)
  else .para line

/-- The report renderer: split on line breaks, classify each line. -/
def renderReport (text : String) : List RLine :=
  (jsSplitNl text).map renderLine

/-! ## Whole-application step relation -/

/-- One user-driven action on the application, carrying the results of
its environment interactions as data. -/
inductive Action where
  | inputChange (f : HWField) (v : String)
  | editLogData (v : String)
  | editChatInput (v : String)
  | fileSelect (file? : Option File) (createObjectURL : File → String)
      (decode : List Nat → String) (readOk : Bool)
  | clearImage
  | analyze (encodeImage : File → String) (outcome : StreamOutcome)
  | chat (outcome : ChatOutcome)

/-- The events an action emits from state `s`. -/
def actionEvents (s : AppState) : Action → List Ev
  | .inputChange f v => handleInputChangeEvents s f v
  | .editLogData v => [Ev.setLogData v]
  | .editChatInput v => [Ev.setChatInput v]
  | .fileSelect file? u d ok => handleFileSelectEvents s file? u d ok
  | .clearImage => clearImageEvents
  | .analyze enc outcome => startAnalysisEvents s enc outcome
  | .chat outcome => sendChatMessageEvents s outcome

/-- The application step function. -/
def step (s : AppState) (a : Action) : AppState :=
  runEvs s (actionEvents s a)

/-- Ghost tracker for claim C6: whether the most recent analysis that got
past validation ran to successful stream completion. -/
def ghostStep (s : AppState) (g : Bool) : Action → Bool
  | .analyze _ outcome =>
    if validationFails s then g
    else
      match outcome with
      | .success _ => true
      | .failure _ _ => false
  | _ => g

/-- Run the application together with the ghost tracker. -/
def run2 : AppState × Bool → List Action → AppState × Bool
  | sg, [] => sg
  | (s, g), a :: rest => run2 (step s a, ghostStep s g a) rest

/-! ## Spec-side auxiliary definitions -/

/-- The text deltas of the truthy (non-empty, present) chunks. -/
def truthyTexts (chunks : List Chunk) : List String :=
  (chunks.filter Chunk.truthy).map (fun c => c.text.getD "")

/-- Cumulative concatenations of a list of strings onto `acc`: the
sequence of intermediate accumulator values. -/
def cumConcats (acc : String) : List String → List String
  | [] => []
  | t :: ts => (acc ++ t) :: cumConcats (acc ++ t) ts

/-! ## Concrete fixtures used by witnesses and counterexamples -/

/-- A state whose log text passes validation. -/
def s1W : AppState := { initState with logData := "FMT data" }

/-- A state with a live chat session and the pending input of the C5
scenario. -/
def s5W : AppState :=
  { initState with chatInput := "test",
                   chatSession := some ⟨"gemini-3-flash-preview", [], systemInstruction⟩ }

/-- A previously selected image attachment. -/
def prevImg : File := ⟨"old.png", "image/png", [9]⟩

/-- A state holding a previously selected image attachment. -/
def s8W : AppState :=
  { initState with imageFile := some prevImg, imagePreview := some "blob:old" }

/-- A small text-like log file. -/
def wLogF : File := ⟨"flight.log", "text/plain", [104, 105]⟩

/-- A concrete decoder for witnesses: each byte as a character. -/
def wDecode : List Nat → String := fun bs => String.mk (bs.map Char.ofNat)

/-- A concrete image file. -/
def imgF : File := ⟨"Shot.PNG", "image/png", [1, 2, 3]⟩

/-! ## Basic lemmas about event folding -/

theorem runEvs_nil (s : AppState) : runEvs s [] = s := rfl

theorem runEvs_cons (s : AppState) (e : Ev) (l : List Ev) :
    runEvs s (e :: l) = runEvs (applyEv s e) l := rfl

theorem runEvs_append (s : AppState) (l1 l2 : List Ev) :
    runEvs s (l1 ++ l2) = runEvs (runEvs s l1) l2 := by
  simp [runEvs, List.foldl_append]

theorem chatSession_analysisLoopEvs (chunks : List Chunk) :
    ∀ (acc : String) (s : AppState),
      (runEvs s (analysisLoopEvs chunks acc)).chatSession = s.chatSession := by
  induction chunks with
  | nil => intro acc s; rfl
  | cons c rest ih =>
    intro acc s
    by_cases hc : c.truthy = true
    · simp only [analysisLoopEvs, hc, if_true, runEvs_cons]
      rw [ih]; rfl
    · rw [Bool.not_eq_true] at hc
      simp only [analysisLoopEvs, hc, Bool.false_eq_true, if_false]
      exact ih acc s

theorem chatSession_chatLoopEvs (chunks : List Chunk) :
    ∀ (base : List Message) (acc : String) (s : AppState),
      (runEvs s (chatLoopEvs base chunks acc)).chatSession = s.chatSession := by
  induction chunks with
  | nil => intro base acc s; rfl
  | cons c rest ih =>
    intro base acc s
    by_cases hc : c.truthy = true
    · simp only [chatLoopEvs, hc, if_true, runEvs_cons]
      rw [ih]; rfl
    · rw [Bool.not_eq_true] at hc
      simp only [chatLoopEvs, hc, Bool.false_eq_true, if_false]
      exact ih base acc s

/-! ## Claim C10 -/

/-- C10: for every HardwareContext field name and string value, the
field-update operation of `handleInputChange` sets that field to the
value and leaves the other six fields unchanged. -/
theorem C10_hw_field_frame (s : AppState) (f : HWField) (v : String) :
    (runEvs s (handleInputChangeEvents s f v)).hardware = setHWField s.hardware f v
    ∧ getHWField (setHWField s.hardware f v) f = v
    ∧ ∀ g, g ≠ f → getHWField (setHWField s.hardware f v) g = getHWField s.hardware g := by
  refine ⟨rfl, ?_, ?_⟩
  · cases f <;> rfl
  · intro g hg
    cases f <;> cases g <;> first | rfl | exact absurd rfl hg

/-- Witness for C10 at a concrete field, value and state. -/
theorem C10_hw_field_frame_witness :
    getHWField (setHWField initState.hardware HWField.weight "9") HWField.weight = "9"
    ∧ getHWField (setHWField initState.hardware HWField.weight "9") HWField.frameType
        = "Quad X" :=
  ⟨(C10_hw_field_frame initState HWField.weight "9").2.1,
   ((C10_hw_field_frame initState HWField.weight "9").2.2 HWField.frameType
      (by decide)).trans rfl⟩

/-! ## Claim C9 -/

/-- C9: selecting a file whose lowercased name ends in .jpg, .jpeg, .png
or .webp never attempts a text read and always ends with exactly the
newly selected file as the active image attachment, replacing any prior
attachment. -/
theorem C9_image_selection (s : AppState) (f : File) (u : File → String)
    (d : List Nat → String) (readOk : Bool)
    (h : isImageName (jsToLower f.name) = true) :
    handleFileSelectEvents s (some f) u d readOk =
      [Ev.setImageFile none, Ev.setImagePreview none, Ev.setErrorMsg "",
       Ev.setImageFile (some f), Ev.setImagePreview (some (u f))]
    ∧ (handleFileSelectEvents s (some f) u d readOk).countP isTextRead = 0
    ∧ runEvs s (handleFileSelectEvents s (some f) u d readOk) =
        { s with imageFile := some f, imagePreview := some (u f), errorMsg := "" } := by
  have he : handleFileSelectEvents s (some f) u d readOk =
      [Ev.setImageFile none, Ev.setImagePreview none, Ev.setErrorMsg "",
       Ev.setImageFile (some f), Ev.setImagePreview (some (u f))] := by
    simp [handleFileSelectEvents, h]
  exact ⟨he, by rw [he]; rfl, by rw [he]; rfl⟩

/-- Witness for C9: a concrete .PNG selection replaces a prior
attachment. -/
theorem C9_image_selection_witness :
    runEvs s8W (handleFileSelectEvents s8W (some imgF)
        (fun f => "blob:" ++ f.name) wDecode true) =
      { s8W with imageFile := some imgF, imagePreview := some "blob:Shot.PNG",
                 errorMsg := "" } :=
  (C9_image_selection s8W imgF (fun f => "blob:" ++ f.name) wDecode true
    (by decide)).2.2

/-! ## Claim C8 -/

/-- C8 counterexample: with a previously selected image attachment, a
failed text read of a newly selected text-like file still clears the
attachment, so the state is not left unchanged apart from the error
message. -/
theorem C8_read_failure_counterexample :
    (runEvs s8W (handleFileSelectEvents s8W (some wLogF)
        (fun _ => "u") wDecode false)).errorMsg = "Failed to read text file."
    ∧ s8W.imageFile = some prevImg
    ∧ (runEvs s8W (handleFileSelectEvents s8W (some wLogF)
        (fun _ => "u") wDecode false)).imageFile ≠ s8W.imageFile := by
  decide

/-- C8 amended: if reading a selected text-like file fails, the fixed
error message is surfaced and the state is otherwise unchanged except
that the image attachment (file handle and preview) has been cleared, as
it is on every new selection. -/
theorem C8_read_failure_amended (s : AppState) (f : File) (u : File → String)
    (d : List Nat → String)
    (h1 : isImageName (jsToLower f.name) = false)
    (h2 : jsEndsWith (jsToLower f.name) ".bin" = false) :
    runEvs s (handleFileSelectEvents s (some f) u d false) =
      { s with imageFile := none, imagePreview := none,
               errorMsg := "Failed to read text file." } := by
  have he : handleFileSelectEvents s (some f) u d false =
      [Ev.setImageFile none, Ev.setImagePreview none, Ev.setErrorMsg "",
       Ev.textReadAttempt f, Ev.setErrorMsg "Failed to read text file."] := by
    simp [handleFileSelectEvents, h1, h2]
  rw [he]; rfl

/-- Witness for C8 at a concrete state and file. -/
theorem C8_read_failure_amended_witness :
    runEvs s8W (handleFileSelectEvents s8W (some wLogF) (fun _ => "u") wDecode false) =
      { s8W with imageFile := none, imagePreview := none,
                 errorMsg := "Failed to read text file." } :=
  C8_read_failure_amended s8W wLogF (fun _ => "u") wDecode (by decide) (by decide)

/-! ## Claim C7 -/

/-- C7 counterexample: a fragment whose text delta is absent (and one
whose delta is empty) triggers no AnalysisResult update, so a stream of
one fragment does not produce one state mutation. -/
theorem C7_fragment_updates_counterexample :
    analysisLoopEvs [Chunk.mk none] "" = []
    ∧ analysisLoopEvs [Chunk.mk (some "")] "" = []
    ∧ (analysisLoopEvs [Chunk.mk none] "").length ≠ ([Chunk.mk none] : List Chunk).length := by
  decide

theorem analysisLoopEvs_eq_cumConcats (chunks : List Chunk) :
    ∀ acc, analysisLoopEvs chunks acc =
      (cumConcats acc (truthyTexts chunks)).map (fun v => Ev.setAnalysisResult (some v)) := by
  induction chunks with
  | nil => intro acc; rfl
  | cons c rest ih =>
    intro acc
    by_cases hc : c.truthy = true
    · have ht : truthyTexts (c :: rest) = (c.text.getD "") :: truthyTexts rest := by
        simp [truthyTexts, List.filter_cons, hc]
      simp [analysisLoopEvs, hc, ht, cumConcats, ih]
    · have ht : truthyTexts (c :: rest) = truthyTexts rest := by
        simp [truthyTexts, List.filter_cons, hc]
      simp [analysisLoopEvs, hc, ht, ih]

theorem cumConcats_length (l : List String) :
    ∀ acc, (cumConcats acc l).length = l.length := by
  induction l with
  | nil => intro acc; rfl
  | cons t ts ih => intro acc; simp [cumConcats, ih]

/-- C7 amended: during analysis streaming, every fragment carrying a
non-empty text delta triggers exactly one AnalysisResult update, holding
the cumulative concatenation, in stream order; fragments with an empty
or absent text delta are skipped without a state update. -/
theorem C7_fragment_updates_amended (chunks : List Chunk) (acc : String) :
    analysisLoopEvs chunks acc =
      (cumConcats acc (truthyTexts chunks)).map (fun v => Ev.setAnalysisResult (some v))
    ∧ (analysisLoopEvs chunks acc).length = (chunks.filter Chunk.truthy).length := by
  refine ⟨analysisLoopEvs_eq_cumConcats chunks acc, ?_⟩
  rw [analysisLoopEvs_eq_cumConcats chunks acc]
  simp [cumConcats_length, truthyTexts]

/-! ## Claim C3 -/

/-- C3: for every text-like selected file of byte size S whose read
succeeds, if S is at most 5 MiB the resulting log text is the full
decoded content, and if S exceeds 5 MiB it is the decoded content of
exactly the first 5 MiB of bytes followed by the fixed truncation
suffix. -/
theorem C3_text_truncation (s : AppState) (f : File) (u : File → String)
    (decode : List Nat → String)
    (h1 : isImageName (jsToLower f.name) = false)
    (h2 : jsEndsWith (jsToLower f.name) ".bin" = false) :
    (f.size ≤ MAX_SIZE →
      (runEvs s (handleFileSelectEvents s (some f) u decode true)).logData
        = decode f.bytes)
    ∧ (f.size > MAX_SIZE →
      (runEvs s (handleFileSelectEvents s (some f) u decode true)).logData
          = decode (f.bytes.take MAX_SIZE) ++ truncationSuffix
        ∧ (f.bytes.take MAX_SIZE).length = MAX_SIZE) := by
  have he : handleFileSelectEvents s (some f) u decode true =
      [Ev.setImageFile none, Ev.setImagePreview none, Ev.setErrorMsg "",
       Ev.textReadAttempt f,
       Ev.setLogData (if f.size > MAX_SIZE then
           decode (f.bytes.take MAX_SIZE) ++ truncationSuffix
         else decode f.bytes)] := by
    simp [handleFileSelectEvents, h1, h2]
  constructor
  · intro hle
    rw [he]
    show (if f.size > MAX_SIZE then
        decode (f.bytes.take MAX_SIZE) ++ truncationSuffix
      else decode f.bytes) = decode f.bytes
    rw [if_neg (Nat.not_lt.mpr hle)]
  · intro hgt
    constructor
    · rw [he]
      show (if f.size > MAX_SIZE then
          decode (f.bytes.take MAX_SIZE) ++ truncationSuffix
        else decode f.bytes) = decode (f.bytes.take MAX_SIZE) ++ truncationSuffix
      rw [if_pos hgt]
    · have hle : MAX_SIZE ≤ f.bytes.length := Nat.le_of_lt hgt
      simp [List.length_take, Nat.min_eq_left hle]

/-- Witness for C3 at a concrete small file and decoder. -/
theorem C3_text_truncation_witness :
    (runEvs initState (handleFileSelectEvents initState (some wLogF)
        (fun _ => "") wDecode true)).logData = wDecode wLogF.bytes :=
  (C3_text_truncation initState wLogF (fun _ => "") wDecode
    (by decide) (by decide)).1 (by decide)

/-! ## Claim C4 -/

theorem jsReplaceFirst_hash_of_startsWith (l : String)
    (h : jsStartsWith l "###" = true) :
    jsReplaceFirst l "###" = jsSubstringFrom l 3 := by
  unfold jsStartsWith at h
  have hd : ("###".data : List Char) = ['#', '#', '#'] := rfl
  rw [hd, List.isPrefixOf_iff_prefix] at h
  obtain ⟨t, ht⟩ := h
  unfold jsReplaceFirst jsSubstringFrom
  rw [hd, ← ht]
  simp [replaceFirstAux, List.isPrefixOf]

/-- C4: the report renderer is a pure per-line transformation: it splits
the text on line breaks and classifies each line independently by its
leading characters — a three-hash prefix yields a heading with only the
leading marker removed (so the line consisting of three hashes, a space
and the words Health Check displays with the text starting at the
space), a double-asterisk prefix yields a sub-heading with the marker
characters stripped, a leading hyphen yields a list item with the marker
stripped, and every other line, an empty line included, yields a plain
paragraph. -/
theorem C4_report_renderer :
    (∀ t, renderReport t = (jsSplitNl t).map renderLine)
    ∧ (∀ l, jsStartsWith l "###" = true →
        renderLine l = RLine.heading (jsSubstringFrom l 3))
    ∧ renderLine "### Health Check" = RLine.heading " Health Check"
    ∧ (∀ l, jsStartsWith l "###" = false → jsStartsWith l "**" = true →
        renderLine l = RLine.subheading (jsReplaceAll l "**"))
    ∧ (∀ l, jsStartsWith l "###" = false → jsStartsWith l "**" = false →
        jsStartsWith l "-" = true →
        renderLine l = RLine.listItem (jsSubstringFrom l 1))
    ∧ (∀ l, jsStartsWith l "###" = false → jsStartsWith l "**" = false →
        jsStartsWith l "-" = false → renderLine l = RLine.para l)
    ∧ renderLine "" = RLine.para "" := by
  refine ⟨fun t => rfl, ?_, ?_, ?_, ?_, ?_, ?_⟩
  · intro l h
    simp [renderLine, h, jsReplaceFirst_hash_of_startsWith l h]
  · decide
  · intro l h1 h2
    simp [renderLine, h1, h2]
  · intro l h1 h2 h3
    simp [renderLine, h1, h2, h3]
  · intro l h1 h2 h3
    simp [renderLine, h1, h2, h3]
  · decide

/-- Witness for C4 at concrete lines of each category. -/
theorem C4_report_renderer_witness :
    renderLine "- item" = RLine.listItem " item"
    ∧ renderLine "**Bold** rest" = RLine.subheading "Bold rest" :=
  ⟨(C4_report_renderer.2.2.2.2.1 "- item" (by decide) (by decide) (by decide)).trans
      (by decide),
   (C4_report_renderer.2.2.2.1 "**Bold** rest" (by decide) (by decide)).trans
      (by decide)⟩

/-! ## Claim C2 -/

/-- C2: if at analysis start the log text is empty or whitespace-only
and no image attachment is present, startAnalysis sets the fixed
validation error message and returns without any remote-service call
and without clearing AnalysisResult, ChatSession or ChatHistory. -/
theorem C2_validation_refusal (s : AppState) (enc : File → String)
    (outcome : StreamOutcome)
    (h1 : jsTrim s.logData = "") (h2 : s.imageFile = none) :
    startAnalysisEvents s enc outcome = [Ev.setErrorMsg fixedValidationMsg]
    ∧ runEvs s (startAnalysisEvents s enc outcome)
        = { s with errorMsg := fixedValidationMsg }
    ∧ (startAnalysisEvents s enc outcome).countP isRemoteEv = 0 := by
  have hv : validationFails s = true := by
    simp [validationFails, h1, h2]
  have he : startAnalysisEvents s enc outcome = [Ev.setErrorMsg fixedValidationMsg] := by
    simp [startAnalysisEvents, hv]
  exact ⟨he, by rw [he]; rfl, by rw [he]; rfl⟩

/-- Witness for C2 at the initial state. -/
theorem C2_validation_refusal_witness :
    startAnalysisEvents initState (fun _ => "") (StreamOutcome.success [])
      = [Ev.setErrorMsg fixedValidationMsg] :=
  (C2_validation_refusal initState (fun _ => "") (StreamOutcome.success [])
    (by decide) rfl).1

/-! ## Claim C1 -/

/-- C1: for an analysis whose stream yields the non-empty fragments A, B
and C in order, the observable AnalysisResult passes through exactly the
values A, AB and ABC in that order, and the ChatSession is created only
after the stream is exhausted, seeded with a two-turn history whose user
turn is the original request parts and whose model turn is the full
accumulated text ABC. -/
theorem C1_analysis_stream_trace (s : AppState) (enc : File → String)
    (h : validationFails s = false) :
    startAnalysisEvents s enc
        (StreamOutcome.success [Chunk.mk (some "A"), Chunk.mk (some "B"), Chunk.mk (some "C")]) =
      [Ev.setErrorMsg "", Ev.setIsAnalyzing true, Ev.setAnalysisResult none,
       Ev.setChatHistory [], Ev.setChatSession none, Ev.remoteGenerateCall,
       Ev.setAnalysisResult (some "A"), Ev.setAnalysisResult (some "AB"),
       Ev.setAnalysisResult (some "ABC"), Ev.setIsAnalyzing false, Ev.remoteChatCreate,
       Ev.setChatSession (some ⟨"gemini-3-flash-preview",
         [⟨"user", buildParts s enc⟩, ⟨"model", [Part.text "ABC"]⟩],
         systemInstruction⟩)] := by
  unfold startAnalysisEvents
  split
  · rename_i hv
    rw [h] at hv
    cases hv
  · rfl

/-- Witness for C1 at a concrete state passing validation. -/
theorem C1_analysis_stream_trace_witness :
    startAnalysisEvents s1W (fun _ => "")
        (StreamOutcome.success [Chunk.mk (some "A"), Chunk.mk (some "B"), Chunk.mk (some "C")]) =
      [Ev.setErrorMsg "", Ev.setIsAnalyzing true, Ev.setAnalysisResult none,
       Ev.setChatHistory [], Ev.setChatSession none, Ev.remoteGenerateCall,
       Ev.setAnalysisResult (some "A"), Ev.setAnalysisResult (some "AB"),
       Ev.setAnalysisResult (some "ABC"), Ev.setIsAnalyzing false, Ev.remoteChatCreate,
       Ev.setChatSession (some ⟨"gemini-3-flash-preview",
         [⟨"user", buildParts s1W (fun _ => "")⟩, ⟨"model", [Part.text "ABC"]⟩],
         systemInstruction⟩)] :=
  C1_analysis_stream_trace s1W (fun _ => "") (by decide)

/-! ## Claim C5 -/

/-- C5: for a chat invocation with a non-empty message and an existing
ChatSession whose stream yields X then Y, the user entry is appended and
the input cleared, a placeholder empty model entry is appended before
the first fragment, each fragment updates that last entry in place with
the cumulative concatenation (so the model entry passes through X before
settling at XY and the history gains exactly two entries); an invocation
with an empty or whitespace-only message, or with no ChatSession, emits
nothing. -/
theorem C5_chat_stream_trace (s : AppState) (sess : ChatSessionData)
    (h1 : jsTrim s.chatInput ≠ "") (h2 : s.chatSession = some sess) :
    sendChatMessageEvents s
        (ChatOutcome.success [Chunk.mk (some "X"), Chunk.mk (some "Y")]) =
      [Ev.setChatInput "",
       Ev.setChatHistory (s.chatHistory ++ [⟨Role.user, s.chatInput⟩]),
       Ev.remoteChatSend s.chatInput,
       Ev.setChatHistory ((s.chatHistory ++ [⟨Role.user, s.chatInput⟩]) ++ [⟨Role.model, ""⟩]),
       Ev.setChatHistory ((s.chatHistory ++ [⟨Role.user, s.chatInput⟩]) ++ [⟨Role.model, "X"⟩]),
       Ev.setChatHistory ((s.chatHistory ++ [⟨Role.user, s.chatInput⟩]) ++ [⟨Role.model, "XY"⟩])]
    ∧ (runEvs s (sendChatMessageEvents s
        (ChatOutcome.success [Chunk.mk (some "X"), Chunk.mk (some "Y")]))).chatHistory =
        s.chatHistory ++ [⟨Role.user, s.chatInput⟩, ⟨Role.model, "XY"⟩]
    ∧ (∀ (s' : AppState) (out : ChatOutcome),
        jsTrim s'.chatInput = "" ∨ s'.chatSession = none →
        sendChatMessageEvents s' out = []) := by
  have hg : (jsTrim s.chatInput == "" || s.chatSession == none) = false := by
    simp [h1, h2]
  have he : sendChatMessageEvents s
      (ChatOutcome.success [Chunk.mk (some "X"), Chunk.mk (some "Y")]) =
      [Ev.setChatInput "",
       Ev.setChatHistory (s.chatHistory ++ [⟨Role.user, s.chatInput⟩]),
       Ev.remoteChatSend s.chatInput,
       Ev.setChatHistory ((s.chatHistory ++ [⟨Role.user, s.chatInput⟩]) ++ [⟨Role.model, ""⟩]),
       Ev.setChatHistory ((s.chatHistory ++ [⟨Role.user, s.chatInput⟩]) ++ [⟨Role.model, "X"⟩]),
       Ev.setChatHistory ((s.chatHistory ++ [⟨Role.user, s.chatInput⟩]) ++ [⟨Role.model, "XY"⟩])] := by
    unfold sendChatMessageEvents
    split
    · rename_i hcond
      rw [hg] at hcond
      cases hcond
    · rfl
  refine ⟨he, ?_, ?_⟩
  · rw [he]
    show ((s.chatHistory ++ [⟨Role.user, s.chatInput⟩]) ++ [⟨Role.model, "XY"⟩] : List Message)
      = s.chatHistory ++ [⟨Role.user, s.chatInput⟩, ⟨Role.model, "XY"⟩]
    simp
  · intro s' out hor
    rcases hor with h' | h'
    · simp [sendChatMessageEvents, h']
    · simp [sendChatMessageEvents, h']

/-- Witness for C5 at a concrete state with a live session and the
input of the scenario. -/
theorem C5_chat_stream_trace_witness :
    (runEvs s5W (sendChatMessageEvents s5W
        (ChatOutcome.success [Chunk.mk (some "X"), Chunk.mk (some "Y")]))).chatHistory =
      s5W.chatHistory ++ [⟨Role.user, s5W.chatInput⟩, ⟨Role.model, "XY"⟩] :=
  (C5_chat_stream_trace s5W ⟨"gemini-3-flash-preview", [], systemInstruction⟩
    (by decide) rfl).2.1

/-! ## Claim C6 -/

theorem runEvs_singleton (s : AppState) (e : Ev) : runEvs s [e] = applyEv s e := rfl

theorem chatSession_handleFileSelect (s : AppState) (file? : Option File)
    (u : File → String) (d : List Nat → String) (ok : Bool) :
    (runEvs s (handleFileSelectEvents s file? u d ok)).chatSession = s.chatSession := by
  cases file? with
  | none => rfl
  | some f =>
    simp only [handleFileSelectEvents]
    split
    · rfl
    · split
      · rfl
      · split <;> rfl

theorem chatSession_sendChat (s : AppState) (outcome : ChatOutcome) :
    (runEvs s (sendChatMessageEvents s outcome)).chatSession = s.chatSession := by
  simp only [sendChatMessageEvents]
  split
  · rfl
  · cases outcome with
    | success chunks =>
      rw [runEvs_append, runEvs_cons, runEvs_cons, chatSession_chatLoopEvs]
      rfl
    | sendError msg => rfl
    | streamError chunks msg =>
      rw [runEvs_append, runEvs_cons, runEvs_cons, runEvs_append, runEvs_singleton]
      show (runEvs _ (chatLoopEvs _ chunks "")).chatSession = s.chatSession
      rw [chatSession_chatLoopEvs]
      rfl

theorem chatSession_startAnalysis_success (s : AppState) (enc : File → String)
    (chunks : List Chunk) (hv : validationFails s = false) :
    (runEvs s (startAnalysisEvents s enc (StreamOutcome.success chunks))).chatSession
      = some ⟨"gemini-3-flash-preview",
          [⟨"user", buildParts s enc⟩, ⟨"model", [Part.text (streamAccum chunks "")]⟩],
          systemInstruction⟩ := by
  simp only [startAnalysisEvents]
  split
  · rename_i h
    rw [hv] at h
    cases h
  · rw [runEvs_append, runEvs_cons, runEvs_append]
    rfl

theorem chatSession_startAnalysis_failure (s : AppState) (enc : File → String)
    (chunks : List Chunk) (msg : String) (hv : validationFails s = false) :
    (runEvs s (startAnalysisEvents s enc (StreamOutcome.failure chunks msg))).chatSession
      = none := by
  simp only [startAnalysisEvents]
  split
  · rename_i h
    rw [hv] at h
    cases h
  · rw [runEvs_append, runEvs_cons, runEvs_append]
    have htail : ∀ R : AppState,
        (runEvs R [Ev.setErrorMsg (if msg = "" then "Analysis failed." else msg),
          Ev.setIsAnalyzing false]).chatSession = R.chatSession := fun R => rfl
    rw [htail, runEvs_cons, chatSession_analysisLoopEvs]
    rfl

theorem step_chatSession (s : AppState) (a : Action) :
    (step s a).chatSession.isSome = ghostStep s s.chatSession.isSome a := by
  cases a with
  | inputChange f v => rfl
  | editLogData v => rfl
  | editChatInput v => rfl
  | clearImage => rfl
  | fileSelect file? u d ok =>
    show (runEvs s (handleFileSelectEvents s file? u d ok)).chatSession.isSome
      = s.chatSession.isSome
    rw [chatSession_handleFileSelect]
  | chat outcome =>
    show (runEvs s (sendChatMessageEvents s outcome)).chatSession.isSome
      = s.chatSession.isSome
    rw [chatSession_sendChat]
  | analyze enc outcome =>
    by_cases hv : validationFails s = true
    · show (runEvs s (startAnalysisEvents s enc outcome)).chatSession.isSome = _
      simp only [startAnalysisEvents, ghostStep, hv, if_true]
      rfl
    · rw [Bool.not_eq_true] at hv
      cases outcome with
      | success chunks =>
        show (runEvs s (startAnalysisEvents s enc (StreamOutcome.success chunks))).chatSession.isSome = _
        rw [chatSession_startAnalysis_success s enc chunks hv]
        simp [ghostStep, hv]
      | failure chunks msg =>
        show (runEvs s (startAnalysisEvents s enc (StreamOutcome.failure chunks msg))).chatSession.isSome = _
        rw [chatSession_startAnalysis_failure s enc chunks msg hv]
        simp [ghostStep, hv]

theorem run2_invariant (acts : List Action) :
    ∀ sg : AppState × Bool, sg.1.chatSession.isSome = sg.2 →
      (run2 sg acts).1.chatSession.isSome = (run2 sg acts).2 := by
  induction acts with
  | nil => intro sg h; exact h
  | cons a rest ih =>
    intro sg h
    cases sg with
    | mk s g =>
      show (run2 (step s a, ghostStep s g a) rest).1.chatSession.isSome
        = (run2 (step s a, ghostStep s g a) rest).2
      exact ih (step s a, ghostStep s g a) (by rw [step_chatSession, h])

/-- C6: in every reachable state, ChatSession is non-null exactly when
the most recent analysis that got past validation ran to successful
stream completion; an analysis past validation clears ChatSession and
ChatHistory together at its start, and a failed analysis leaves
ChatSession null. -/
theorem C6_session_iff_success :
    (∀ acts : List Action,
      (run2 (initState, false) acts).1.chatSession.isSome
        = (run2 (initState, false) acts).2)
    ∧ (∀ (s : AppState) (enc : File → String) (outcome : StreamOutcome),
        validationFails s = false →
        (actionEvents s (Action.analyze enc outcome)).take 5 =
          [Ev.setErrorMsg "", Ev.setIsAnalyzing true, Ev.setAnalysisResult none,
           Ev.setChatHistory [], Ev.setChatSession none])
    ∧ (∀ (s : AppState) (enc : File → String) (chunks : List Chunk) (msg : String),
        validationFails s = false →
        (step s (Action.analyze enc (StreamOutcome.failure chunks msg))).chatSession
          = none) := by
  refine ⟨fun acts => run2_invariant acts (initState, false) rfl, ?_, ?_⟩
  · intro s enc outcome hv
    show (startAnalysisEvents s enc outcome).take 5 = _
    simp only [startAnalysisEvents]
    split
    · rename_i h
      rw [hv] at h
      cases h
    · cases outcome <;> rfl
  · intro s enc chunks msg hv
    exact chatSession_startAnalysis_failure s enc chunks msg hv

/-- Witness for C6 at a concrete action sequence and state. -/
theorem C6_session_iff_success_witness :
    ((run2 (initState, false)
        [Action.analyze (fun _ => "") (StreamOutcome.success [Chunk.mk (some "ok")])]).1.chatSession.isSome
      = (run2 (initState, false)
        [Action.analyze (fun _ => "") (StreamOutcome.success [Chunk.mk (some "ok")])]).2)
    ∧ (actionEvents s1W (Action.analyze (fun _ => "") (StreamOutcome.success []))).take 5 =
        [Ev.setErrorMsg "", Ev.setIsAnalyzing true, Ev.setAnalysisResult none,
         Ev.setChatHistory [], Ev.setChatSession none]
    ∧ (step s1W (Action.analyze (fun _ => "") (StreamOutcome.failure [] "boom"))).chatSession
        = none :=
  ⟨C6_session_iff_success.1 _,
   C6_session_iff_success.2.1 s1W (fun _ => "") (StreamOutcome.success []) (by decide),
   C6_session_iff_success.2.2 s1W (fun _ => "") [] "boom" (by decide)⟩

end ArduLog
